import Mathlib

/-!
Verification of the WaveClus external-tool orchestration adapter
(`spikesorters/waveclus/waveclus.py`).

The adapter is shallowly embedded: the filesystem is a list of existing
paths, path resolution (`Path(...).absolute()`) is an abstract function
`resolve : String → String`, Python dictionary values are modelled by the
inductive `PVal`, and the fallible/stateful fragments of `_run`,
`_setup_recording` and `set_waveclus_path` become explicit
state-passing functions returning `Except`.

Python string primitives (`startswith`, slicing, `in`) are modelled on the
character list of a `String` so that every definition evaluates inside the
kernel.
-/

set_option autoImplicit false

namespace WaveClus

/-- Python `s.startswith('"')`: the first character is a double quote. -/
def startsWithQuote (s : String) : Bool :=
  match s.data with
  | [] => false
  | c :: _ => c == '\"'

/-- Python `s.endswith('"')`: the last character is a double quote. -/
def endsWithQuote (s : String) : Bool :=
  match s.data.getLast? with
  | none => false
  | some c => c == '\"'

/-- Python slice `s[1:-1]`: drop the first and the last character. -/
def slice1m1 (s : String) : String := String.mk ((s.data.drop 1).dropLast)

/-- Membership of a path in the modelled filesystem (Python `os.path.exists`
or `Path.is_file` against the set `fs` of existing paths). -/
def fsHas (fs : List String) (p : String) : Bool :=
  fs.any (fun q => decide (q = p))

/-- Path concatenation, modelling Python's `Path(a) / b` and `os.path.join`. -/
def joinPath (a b : String) : String := a ++ "/" ++ b

/-- Kinds of Python values that occur in the WaveClus parameter dictionary:
integers, (real) numbers, strings and booleans. -/
inductive PVal where
  | int : Int → PVal
  | real : ℚ → PVal
  | str : String → PVal
  | bool : Bool → PVal
deriving DecidableEq

/-- Whether a parameter value is a Python boolean. -/
def PVal.isBool : PVal → Bool
  | .bool _ => true
  | _ => false

/-- Embedding of `check_if_installed` (waveclus.py lines 14-26).
`fs` is the set of files that exist, `resolve` models
`str(Path(p).absolute())`.  The source strips the first and last character
whenever the path starts with a double quote (`p[1:-1]` guarded only by
`startswith`), resolves the result, and tests whether the marker file
`wave_clus.m` lies directly inside the resulting directory. -/
def check_if_installed (fs : List String) (resolve : String → String)
    (waveclus_path : Option String) : Bool :=
  match waveclus_path with
  | none => false
  | some p0 =>
    let p1 := if startsWithQuote p0 then slice1m1 p0 else p0
    let p2 := resolve p1
    if fsHas fs (joinPath p2 "wave_clus.m") then true else false

/-- The quote-normalization step of `check_if_installed` exactly as the
source performs it: the first and last characters are stripped whenever the
path merely starts with a double quote. -/
def stripLeadingQuotePair (p : String) : String :=
  if startsWithQuote p then slice1m1 p else p

/-- Quote normalization as the specification words it ("strips a single
pair of enclosing quote characters if present"): both ends must carry the
quote for anything to be stripped.  Used only to compare the code against
the spec's reading. -/
def stripEnclosingQuotesSpec (p : String) : String :=
  if startsWithQuote p && endsWithQuote p && decide (2 ≤ p.data.length) then
    slice1m1 p
  else p

/-- Process-wide mutable state touched by the sorter class: the class-level
`WaveClusSorter.waveclus_path` attribute and the process environment
(`os.environ`). -/
structure WCState where
  waveclus_path : Option String
  env : List (String × String)

/-- Setting a key in the environment mapping (`os.environ[k] = v`). -/
def envSet (env : List (String × String)) (k v : String) : List (String × String) :=
  if env.any (fun kv => decide (kv.1 = k)) then
    env.map (fun kv => if kv.1 = k then (k, v) else kv)
  else env ++ [(k, v)]

/-- Embedding of `WaveClusSorter.set_waveclus_path` (lines 122-130).
`resolve` models `str(Path(p).absolute())`; `envSetFails` models whether the
guarded `os.environ["WAVECLUS_PATH"] = waveclus_path` statement raises.  The
source catches any such exception and only prints it, so the function
returns normally (`Except.ok`) on every path, with the class attribute
already updated before the `try` block. -/
def set_waveclus_path (resolve : String → String) (envSetFails : Bool)
    (st : WCState) (p : String) : Except String WCState :=
  let absPath := resolve p
  let st1 : WCState := { st with waveclus_path := some absPath }
  if envSetFails then Except.ok st1
  else Except.ok { st1 with env := envSet st1.env "WAVECLUS_PATH" absPath }

/-- Embedding of the classmethod `WaveClusSorter.is_installed` (lines
108-110): delegates to `check_if_installed` on the class-level path. -/
def is_installed (fs : List String) (resolve : String → String) (st : WCState) : Bool :=
  check_if_installed fs resolve st.waveclus_path

/-- The recording collaborator: channel ids, per-channel traces, sampling
frequency, filtered flag and frame count, as used by the adapter. -/
structure Recording where
  channel_ids : List Nat
  traces : Nat → List Int
  sampling_frequency : ℚ
  is_filtered : Bool
  num_frames : Nat

/-- Content of one per-channel export file written by `savemat`: the
channel's trace under key `data` and the sampling rate under key `sr`
(line 140-141). -/
structure MatFile where
  data : List Int
  sr : ℚ
deriving DecidableEq

/-- The export loop of `_setup_recording` (lines 138-141), one step per
`enumerate(recording.get_channel_ids())` iteration: `nch` is the running
0-based index, the file is named `raw<nch+1>.mat`. -/
def exportChannels (sr : ℚ) (traces : Nat → List Int) :
    Nat → List Nat → List (String × MatFile)
  | _, [] => []
  | nch, id :: rest =>
      ("raw" ++ toString (nch + 1) ++ ".mat", ⟨traces id, sr⟩) ::
        exportChannels sr traces (nch + 1) rest

/-- The full set of per-channel export files produced by
`_setup_recording` for a recording, in channel order. -/
def setup_recording_mats (r : Recording) : List (String × MatFile) :=
  exportChannels r.sampling_frequency r.traces 0 r.channel_ids

/-- The class attribute `WaveClusSorter.installation_mesg` (lines 96-103). -/
def installation_mesg : String :=
  "\nTo use WaveClus run:\n\n        >>> git clone https://github.com/csn-le/wave_clus\n    and provide the installation path by setting the WAVECLUS_PATH\n    environment variables or using WaveClusSorter.set_waveclus_path().\n\n\n\n    More information on WaveClus at:\n        https://github.com/csn-le/wave_clus/wiki\n    "

/-- Embedding of `WaveClusSorter._setup_recording` (lines 132-141) as a
state-passing function over the filesystem: if the installation check
fails, the installation message is raised before any directory or file is
created (the returned filesystem is the input one); otherwise the output
folder is created (`os.makedirs`, idempotent) and one `raw<n>.mat` file per
channel is written inside it. -/
def setup_recording (fs : List String) (resolve : String → String)
    (waveclus_path : Option String) (r : Recording) (output_folder : String) :
    Except String Unit × List String :=
  if check_if_installed fs resolve waveclus_path = false then
    (Except.error installation_mesg, fs)
  else
    let fs1 := fs ++ [output_folder]
    (Except.ok (),
      fs1 ++ (setup_recording_mats r).map (fun f => joinPath output_folder f.1))

/-- A configuration drawn from the documented schema `_default_params`
(lines 37-61): one typed field per documented key.  Numeric parameters are
rationals, the sign enumeration is an integer, the two filter orders are
integers (the code overwrites them with the integer 0), the feature type is
a string and the three toggles are booleans. -/
structure WCConfig where
  detect_threshold : ℚ
  detect_sign : Int
  feature_type : String
  scales : ℚ
  min_clus : ℚ
  maxtemp : ℚ
  template_sdnum : ℚ
  enable_detect_filter : Bool
  enable_sort_filter : Bool
  detect_filter_fmin : ℚ
  detect_filter_fmax : ℚ
  detect_filter_order : Int
  sort_filter_fmin : ℚ
  sort_filter_fmax : ℚ
  sort_filter_order : Int
  mintemp : ℚ
  w_pre : ℚ
  w_post : ℚ
  alignment_window : ℚ
  stdmax : ℚ
  max_spk : ℚ
  ref_ms : ℚ
  interpolation : Bool

/-- The schema defaults `WaveClusSorter._default_params` (lines 37-61). -/
def default_params : WCConfig :=
  { detect_threshold := 5
    detect_sign := -1
    feature_type := "wav"
    scales := 4
    min_clus := 20
    maxtemp := 251 / 1000
    template_sdnum := 3
    enable_detect_filter := true
    enable_sort_filter := true
    detect_filter_fmin := 300
    detect_filter_fmax := 3000
    detect_filter_order := 4
    sort_filter_fmin := 300
    sort_filter_fmax := 3000
    sort_filter_order := 2
    mintemp := 0
    w_pre := 20
    w_post := 44
    alignment_window := 10
    stdmax := 50
    max_spk := 40000
    ref_ms := 3 / 2
    interpolation := true }

/-- The sign recoding of `_run` (lines 153-158): negative sign to `neg`,
positive to `pos`, zero to `both`. -/
def signToken (s : Int) : String :=
  if s < 0 then "neg" else if 0 < s then "pos" else "both"

/-- The translated parameter set built by `_run` (lines 147-174) for a
schema configuration `c` and sampling rate `sr`, as an ordered key-value
list mirroring the final state of the Python dict `p`:

* `p = self.params.copy()` starts from the schema keys in insertion order;
* `detect_sign` is replaced in place by its token (lines 153-158);
* `detect_filter_order` is overwritten with 0 when `enable_detect_filter`
  is false, and `enable_detect_filter` is deleted (lines 160-162);
* symmetrically for the sorting stage (lines 164-166);
* `interpolation` is replaced in place by the character `y` or `n`
  (lines 168-171);
* the new key `sr` is appended with the sampling rate (lines 173-174).

Python dicts preserve insertion order, deleted keys vanish at their
position, in-place updates keep position, and brand-new keys append. -/
def translated_params (c : WCConfig) (sr : ℚ) : List (String × PVal) :=
  [("detect_threshold", PVal.real c.detect_threshold),
   ("detect_sign", PVal.str (signToken c.detect_sign)),
   ("feature_type", PVal.str c.feature_type),
   ("scales", PVal.real c.scales),
   ("min_clus", PVal.real c.min_clus),
   ("maxtemp", PVal.real c.maxtemp),
   ("template_sdnum", PVal.real c.template_sdnum),
   ("detect_filter_fmin", PVal.real c.detect_filter_fmin),
   ("detect_filter_fmax", PVal.real c.detect_filter_fmax),
   ("detect_filter_order", PVal.int (if c.enable_detect_filter then c.detect_filter_order else 0)),
   ("sort_filter_fmin", PVal.real c.sort_filter_fmin),
   ("sort_filter_fmax", PVal.real c.sort_filter_fmax),
   ("sort_filter_order", PVal.int (if c.enable_sort_filter then c.sort_filter_order else 0)),
   ("mintemp", PVal.real c.mintemp),
   ("w_pre", PVal.real c.w_pre),
   ("w_post", PVal.real c.w_post),
   ("alignment_window", PVal.real c.alignment_window),
   ("stdmax", PVal.real c.stdmax),
   ("max_spk", PVal.real c.max_spk),
   ("ref_ms", PVal.real c.ref_ms),
   ("interpolation", PVal.str (if c.interpolation then "y" else "n")),
   ("sr", PVal.real sr)]

/-- The rename table `par_renames` of `_run` (lines 187-191). -/
def par_renames : List (String × String) :=
  [("detect_sign", "detection"), ("detect_threshold", "stdmin"),
   ("feature_type", "features"), ("detect_filter_fmin", "detect_fmin"),
   ("detect_filter_fmax", "detect_fmax"), ("detect_filter_order", "detect_order"),
   ("sort_filter_fmin", "sort_fmin"), ("sort_filter_fmax", "sort_fmax"),
   ("sort_filter_order", "sort_order")]

/-- Literal formatting of one value in the emission loop of `_run`
(lines 192-196): strings are single-quoted, booleans are rendered
lowercase, numbers pass through `str`. -/
def formatValue : PVal → String
  | PVal.str s => "\x27" ++ s ++ "\x27"
  | PVal.bool b => if b then "true" else "false"
  | PVal.int i => toString i
  | PVal.real q => toString q

/-- The same formatter with the boolean branch removed: a boolean would
fall through to Python's plain `str`, which renders capitalized `True` and
`False`.  Used to show the boolean branch is unreachable on translated
schema configurations. -/
def formatValueBoolBranchless : PVal → String
  | PVal.str s => "\x27" ++ s ++ "\x27"
  | PVal.bool b => if b then "True" else "False"
  | PVal.int i => toString i
  | PVal.real q => toString q

/-- Key renaming in the emission loop (lines 197-198). -/
def renameKey (k : String) : String :=
  match par_renames.lookup k with
  | some k2 => k2
  | none => k

/-- The accumulated parameter assignment string `par_str` (lines 186-199):
one `par.<key> = <value>;` fragment per entry. -/
def par_str (p : List (String × PVal)) : String :=
  p.foldl (fun acc kv => acc ++ "par." ++ renameKey kv.1 ++ " = " ++ formatValue kv.2 ++ ";") ""

/-- Whether `pat` is an initial segment of `l` (helper for Python's
substring operator). -/
def listStartsWith : List Char → List Char → Bool
  | [], _ => true
  | _ :: _, [] => false
  | a :: as, b :: bs => a == b && listStartsWith as bs

/-- Whether `pat` occurs as a contiguous run inside `l`. -/
def listContainsSub (pat : List Char) : List Char → Bool
  | [] => listStartsWith pat []
  | b :: bs => listStartsWith pat (b :: bs) || listContainsSub pat bs

/-- Python's substring test `pat in s`. -/
def strContainsSub (s pat : String) : Bool := listContainsSub pat.data s.data

/-- The platform discriminator of `_run` (line 221):
`'win' in sys.platform and sys.platform != 'darwin'`. -/
def selects_windows_branch (platform : String) : Bool :=
  strContainsSub platform "win" && !(platform == "darwin")

/-- The Windows launcher script of `_run` (lines 222-225), already
formatted for a given working directory. -/
def windows_shell_cmd (tmpdir : String) : String :=
  "\n                cd " ++ tmpdir ++
    "\n                matlab -nosplash -wait -log -r run_waveclus\n            "

/-- The POSIX launcher script of `_run` (lines 227-231), already formatted
for a given working directory. -/
def posix_shell_cmd (tmpdir : String) : String :=
  "\n                #!/bin/bash\n                cd \"" ++ tmpdir ++
    "\"\n                matlab -nosplash -nodisplay -log -r run_waveclus\n            "

/-- The launcher-script composition of `_run` (lines 221-231): the Windows
text when the platform discriminator fires, the POSIX text otherwise. -/
def compose_shell_cmd (platform tmpdir : String) : String :=
  if selects_windows_branch platform then windows_shell_cmd tmpdir
  else posix_shell_cmd tmpdir

/-- The two failure conditions raised by the tail of `_run`, tagged by
which of the two distinct `raise` sites fired (lines 238-239 and 241-243). -/
inductive RunError where
  | externalToolFailure : String → RunError
  | missingArtifact : String → RunError
deriving DecidableEq

/-- The exception message carried by a run failure. -/
def RunError.message : RunError → String
  | .externalToolFailure m => m
  | .missingArtifact m => m

/-- The expected result artifact path `str(tmpdir / 'times_results.mat')`
(line 241). -/
def result_fname (tmpdir : String) : String := joinPath tmpdir "times_results.mat"

/-- The log file path `output_folder / f'waveclus.log'` passed to the shell
script runner (line 233). -/
def log_fname (tmpdir : String) : String := joinPath tmpdir "waveclus.log"

/-- Embedding of the result gate at the tail of `_run` (lines 236-243):
after the subprocess exits with `retcode`, a non-zero code raises
`'waveclus returned a non-zero exit code'`; otherwise the absence of
`times_results.mat` in the working directory raises
`'Result file does not exist: <path>'`; otherwise `_run` returns. -/
def result_gate (tmpdir : String) (fs : List String) (retcode : Int) :
    Except RunError Unit :=
  if retcode ≠ 0 then
    Except.error (RunError.externalToolFailure "waveclus returned a non-zero exit code")
  else if fsHas fs (result_fname tmpdir) = false then
    Except.error (RunError.missingArtifact ("Result file does not exist: " ++ result_fname tmpdir))
  else Except.ok ()

/-- C1: for every run in which the subprocess terminates, the result gate
raises the external-tool failure whenever the exit code is non-zero, raises
the missing-artifact failure whenever the exit code is zero but
`times_results.mat` is absent from the working directory, and returns
normally exactly when the exit code is zero and the artifact exists — it
never silently succeeds in either failure case. -/
theorem result_gate_failure_spec (tmpdir : String) (fs : List String) (retcode : Int) :
    (retcode ≠ 0 →
      result_gate tmpdir fs retcode =
        Except.error (RunError.externalToolFailure "waveclus returned a non-zero exit code")) ∧
    (retcode = 0 → fsHas fs (result_fname tmpdir) = false →
      result_gate tmpdir fs retcode =
        Except.error (RunError.missingArtifact
          ("Result file does not exist: " ++ result_fname tmpdir))) ∧
    (result_gate tmpdir fs retcode = Except.ok () ↔
      retcode = 0 ∧ fsHas fs (result_fname tmpdir) = true) := by
  unfold result_gate
  refine ⟨fun h => by simp [h], fun h h2 => by simp [h, h2], ?_⟩
  split_ifs with h1 h2
  · simp [h1]
  · simp [not_not] at h1
    simp [h1, h2]
  · simp [not_not] at h1
    simp [Bool.not_eq_false] at h2
    simp [h1, h2]

/-- C2: the launcher-script composer takes the Windows branch exactly when
the platform identifier contains the substring `win` and is not `darwin`;
`darwin` does contain `win` as a substring, yet the composer emits the
POSIX shell script for it. -/
theorem compose_shell_cmd_platform_spec :
    (∀ platform : String, selects_windows_branch platform = true ↔
      (strContainsSub platform "win" = true ∧ platform ≠ "darwin")) ∧
    strContainsSub "darwin" "win" = true ∧
    (∀ tmpdir : String, compose_shell_cmd "darwin" tmpdir = posix_shell_cmd tmpdir) := by
  refine ⟨fun platform => ?_, by decide, fun tmpdir => rfl⟩
  simp [selects_windows_branch]

/-- C4: translation of `detect_sign` yields the token `neg` for input -1,
`pos` for input 1 and `both` for input 0, both for the recoding function
itself and inside the full translated parameter set of a schema
configuration. -/
theorem detect_sign_translation :
    signToken (-1) = "neg" ∧ signToken 1 = "pos" ∧ signToken 0 = "both" ∧
    (translated_params { default_params with detect_sign := -1 } 24000).lookup "detect_sign" =
      some (PVal.str "neg") ∧
    (translated_params { default_params with detect_sign := 1 } 24000).lookup "detect_sign" =
      some (PVal.str "pos") ∧
    (translated_params { default_params with detect_sign := 0 } 24000).lookup "detect_sign" =
      some (PVal.str "both") :=
  ⟨rfl, rfl, rfl, rfl, rfl, rfl⟩

/-- C3: for every schema configuration, the translated parameter set drops
both enable-filter keys, holds no raw integer under `detect_sign`, holds
exactly one `detect_sign` entry whose value is one of the three sign
tokens, and carries filter order zero for each stage whose enable flag was
false (and the configured order otherwise). -/
theorem translated_params_invariant (c : WCConfig) (sr : ℚ) :
    "enable_detect_filter" ∉ (translated_params c sr).map Prod.fst ∧
    "enable_sort_filter" ∉ (translated_params c sr).map Prod.fst ∧
    (∀ i : Int, ("detect_sign", PVal.int i) ∉ translated_params c sr) ∧
    ((translated_params c sr).map Prod.fst).count "detect_sign" = 1 ∧
    (translated_params c sr).lookup "detect_sign" = some (PVal.str (signToken c.detect_sign)) ∧
    (signToken c.detect_sign = "neg" ∨ signToken c.detect_sign = "pos" ∨
      signToken c.detect_sign = "both") ∧
    (translated_params c sr).lookup "detect_filter_order" =
      some (PVal.int (if c.enable_detect_filter then c.detect_filter_order else 0)) ∧
    (translated_params c sr).lookup "sort_filter_order" =
      some (PVal.int (if c.enable_sort_filter then c.sort_filter_order else 0)) := by
  refine ⟨by simp [translated_params], by simp [translated_params], ?_, by simp [translated_params], rfl, ?_, rfl, rfl⟩
  · intro i hm
    simp [translated_params] at hm
  · unfold signToken
    split_ifs <;> simp

/-- C9: for every schema configuration, the parameter set handed to the
literal formatter contains no boolean-typed value (the enable flags are
deleted and the interpolation flag is recoded to `y`/`n` beforehand), so
formatting with the lowercase-boolean branch removed produces exactly the
same literal for every entry. -/
theorem translated_params_no_bool (c : WCConfig) (sr : ℚ) :
    (∀ kv ∈ translated_params c sr, kv.2.isBool = false) ∧
    (∀ kv ∈ translated_params c sr, formatValue kv.2 = formatValueBoolBranchless kv.2) := by
  have h : ∀ kv ∈ translated_params c sr, kv.2.isBool = false := by
    intro kv hm
    simp only [translated_params, List.mem_cons, List.not_mem_nil, or_false] at hm
    rcases hm with rfl | rfl | rfl | rfl | rfl | rfl | rfl | rfl | rfl | rfl | rfl |
      rfl | rfl | rfl | rfl | rfl | rfl | rfl | rfl | rfl | rfl | rfl <;> rfl
  refine ⟨h, fun kv hm => ?_⟩
  have hb := h kv hm
  rcases kv with ⟨k, v⟩
  cases v with
  | int i => rfl
  | real q => rfl
  | str s => rfl
  | bool b => simp [PVal.isBool] at hb

theorem exportChannels_length (sr : ℚ) (tr : Nat → List Int) (n : Nat) (ids : List Nat) :
    (exportChannels sr tr n ids).length = ids.length := by
  induction ids generalizing n with
  | nil => rfl
  | cons a as ih => simp [exportChannels, ih]

theorem exportChannels_get? (sr : ℚ) (tr : Nat → List Int) (ids : List Nat) (n i : Nat) :
    (exportChannels sr tr n ids).get? i =
      (ids.get? i).map
        (fun id => ("raw" ++ toString (n + i + 1) ++ ".mat", (⟨tr id, sr⟩ : MatFile))) := by
  induction ids generalizing n i with
  | nil => simp [exportChannels]
  | cons a as ih =>
    cases i with
    | zero => simp [exportChannels]
    | succ j =>
      have e : n + 1 + j + 1 = n + (j + 1) + 1 := by omega
      simp only [exportChannels, List.get?_cons_succ]
      rw [ih (n + 1) j, e]

/-- An example recording with channel ids 2, 5 and 9. -/
def example_recording : Recording :=
  { channel_ids := [2, 5, 9]
    traces := fun id => [Int.ofNat id, Int.ofNat id + 1]
    sampling_frequency := 24000
    is_filtered := false
    num_frames := 2 }

/-- C5: export writes one file per channel, named by the channel's 1-based
position in the recording's channel order (`raw1.mat`, `raw2.mat`, ...),
each holding that channel's full trace and the recording's sampling rate;
for channel ids 2, 5, 9 the file names are `raw1.mat`, `raw2.mat`,
`raw3.mat`, not names derived from the ids. -/
theorem setup_recording_mats_spec (r : Recording) :
    (setup_recording_mats r).length = r.channel_ids.length ∧
    (∀ i : Nat, (setup_recording_mats r).get? i =
      (r.channel_ids.get? i).map (fun id =>
        ("raw" ++ toString (i + 1) ++ ".mat",
          (⟨r.traces id, r.sampling_frequency⟩ : MatFile)))) ∧
    (setup_recording_mats example_recording).map Prod.fst =
      ["raw1.mat", "raw2.mat", "raw3.mat"] := by
  refine ⟨exportChannels_length _ _ _ _, fun i => ?_, by decide⟩
  have h := exportChannels_get? r.sampling_frequency r.traces r.channel_ids 0 i
  simpa [setup_recording_mats] using h

/-- Concrete filesystem for the C6 counterexample: exactly the marker file
inside the directory named `"abc` (with its leading quote). -/
def c6fs : List String := ["/cwd/\"abc/wave_clus.m"]

/-- Concrete absolute-path resolution for the counterexamples. -/
def c6resolve (s : String) : String := "/cwd/" ++ s

/-- C6 counterexample: the configured path `"abc` starts with a quote but
does not end with one, so it carries no enclosing quote pair and the
claim's normalization leaves it unchanged; the marker file does exist
directly inside the path so normalized, yet `check_if_installed` strips the
first and last characters anyway (looking inside `/cwd/ab`) and returns
false. -/
theorem check_if_installed_quote_counterexample :
    stripEnclosingQuotesSpec "\"abc" = "\"abc" ∧
    fsHas c6fs (joinPath (c6resolve (stripEnclosingQuotesSpec "\"abc")) "wave_clus.m") = true ∧
    check_if_installed c6fs c6resolve (some "\"abc") = false := by decide

/-- C6 amended: the installation check returns false for an absent path;
for a configured path it strips the first and last characters whenever the
path starts with a quote character (even when the path does not end with
one — not only for an enclosing pair), resolves the result to an absolute
path, and returns true exactly when the marker file `wave_clus.m` exists
directly inside that path. -/
theorem check_if_installed_spec_amended (fs : List String) (resolve : String → String) :
    check_if_installed fs resolve none = false ∧
    (∀ p : String, check_if_installed fs resolve (some p) =
      fsHas fs (joinPath (resolve (stripLeadingQuotePair p)) "wave_clus.m")) := by
  refine ⟨rfl, fun p => ?_⟩
  unfold check_if_installed stripLeadingQuotePair
  cases h : fsHas fs
      (joinPath (resolve (if startsWithQuote p then slice1m1 p else p)) "wave_clus.m") <;>
    simp [h]

/-- C7: when the configured installation path lacks the marker file (the
installation check fails), `_setup_recording` raises the installation
message before any file I/O: the returned filesystem is exactly the input
one — neither the working directory nor any per-channel export file has
been created. -/
theorem setup_recording_not_installed (fs : List String) (resolve : String → String)
    (wp : Option String) (r : Recording) (output_folder : String)
    (h : check_if_installed fs resolve wp = false) :
    setup_recording fs resolve wp r output_folder = (Except.error installation_mesg, fs) := by
  simp [setup_recording, h]

theorem setup_recording_not_installed_witness :
    setup_recording [] c6resolve (some "/inst") example_recording "/out" =
      (Except.error installation_mesg, []) :=
  setup_recording_not_installed [] c6resolve (some "/inst") example_recording "/out" rfl

theorem listStartsWith_self_append (pat suf : List Char) :
    listStartsWith pat (pat ++ suf) = true := by
  induction pat with
  | nil => rfl
  | cons a as ih => simp [listStartsWith, ih]

theorem listContainsSub_of_listStartsWith (pat l : List Char)
    (h : listStartsWith pat l = true) : listContainsSub pat l = true := by
  cases l with
  | nil => exact h
  | cons b bs => simp [listContainsSub, h]

theorem listContainsSub_middle (pre pat suf : List Char) :
    listContainsSub pat (pre ++ (pat ++ suf)) = true := by
  induction pre with
  | nil =>
    exact listContainsSub_of_listStartsWith pat (pat ++ suf)
      (listStartsWith_self_append pat suf)
  | cons b bs ih => simp [listContainsSub, ih]

theorem strContainsSub_middle (pre pat suf : String) :
    strContainsSub (pre ++ pat ++ suf) pat = true := by
  simp [strContainsSub, listContainsSub_middle]

/-- C8 counterexample: a run in which the subprocess exits with code 1 in
working directory `/work` raises the external-tool failure, whose message
is a fixed string that mentions neither the working directory `/work` nor
the log file `/work/waveclus.log`. -/
theorem run_failure_message_counterexample :
    result_gate "/work" [] 1 =
      Except.error (RunError.externalToolFailure "waveclus returned a non-zero exit code") ∧
    strContainsSub "waveclus returned a non-zero exit code" "/work" = false ∧
    strContainsSub "waveclus returned a non-zero exit code" (log_fname "/work") = false :=
  ⟨rfl, by decide, by decide⟩

/-- C8 amended: every failure raised by the result gate is either the
external-tool failure, whose message is the fixed string `waveclus returned
a non-zero exit code` (referencing neither the working directory nor the
log file), or the missing-artifact failure, whose message spells out the
expected result-file path and thereby references the working directory. -/
theorem run_failure_messages (tmpdir : String) (fs : List String) (retcode : Int)
    (e : RunError) (he : result_gate tmpdir fs retcode = Except.error e) :
    e = RunError.externalToolFailure "waveclus returned a non-zero exit code" ∨
    (e = RunError.missingArtifact ("Result file does not exist: " ++ result_fname tmpdir) ∧
      strContainsSub (RunError.message e) tmpdir = true) := by
  unfold result_gate at he
  split_ifs at he with h1 h2
  · injection he with he'
    exact Or.inl he'.symm
  · injection he with he'
    right
    refine ⟨he'.symm, ?_⟩
    rw [← he']
    simpa [RunError.message, result_fname, joinPath, String.append_assoc] using
      strContainsSub_middle "Result file does not exist: " tmpdir
        ("/" ++ "times_results.mat")

theorem run_failure_messages_witness :
    RunError.missingArtifact ("Result file does not exist: " ++ result_fname "/w") =
        RunError.externalToolFailure "waveclus returned a non-zero exit code" ∨
      (RunError.missingArtifact ("Result file does not exist: " ++ result_fname "/w") =
          RunError.missingArtifact ("Result file does not exist: " ++ result_fname "/w") ∧
        strContainsSub
          (RunError.message (RunError.missingArtifact
            ("Result file does not exist: " ++ result_fname "/w"))) "/w" = true) :=
  run_failure_messages "/w" [] 0 _ rfl

/-- C10: `set_waveclus_path` never raises: for every input it returns
normally with the class-level installation path updated to the absolute
form of its argument — whether or not the guarded environment-variable
update failed — so a subsequent `is_installed` check observes the new
path. -/
theorem set_waveclus_path_total (resolve : String → String) (envSetFails : Bool)
    (st : WCState) (p : String) :
    ∃ st' : WCState, set_waveclus_path resolve envSetFails st p = Except.ok st' ∧
      st'.waveclus_path = some (resolve p) ∧
      (∀ (fs : List String) (resolveFS : String → String),
        is_installed fs resolveFS st' =
          check_if_installed fs resolveFS (some (resolve p))) := by
  cases envSetFails <;> exact ⟨_, rfl, rfl, fun fs rf => rfl⟩

end WaveClus
